import Mathlib

/-!
A shallow embedding of the strategy-backtesting core of this repository
(`trading_strategies.py` and the indicator code of `data_processing.py`),
with theorems settling the specification's claims about it.

Modelling conventions:
* Python floats become `ℚ`.  The claims under study are order and equality
  comparisons of finite price arithmetic, where rational arithmetic agrees
  with the source's float arithmetic on the concrete inputs used.
* A pandas column is a `List`; a column that can hold NaN (warm-up values of
  a rolling window, an RSI 0/0) is a `List (Option ℚ)` with `none` for NaN.
  pandas comparisons with NaN are false; the `oLt`/`oGt` helpers mirror that.
* Bar timestamps (`df.index[i]`) are the bar's position `i : ℕ`.
* Mutation of a `Trade` becomes functional update: `check_exit_conditions`
  returns the updated trade together with its boolean result.
-/

/-- `TradeType` of trading_strategies.py (lines 10-13). -/
inductive TradeType where
  | BUY
  | SELL
deriving DecidableEq

/-- `TradeStatus` of trading_strategies.py (lines 15-20). -/
inductive TradeStatus where
  | OPEN
  | CLOSED_PROFIT
  | CLOSED_LOSS
  | CLOSED_EVEN
deriving DecidableEq

/-- The `Trade` dataclass (trading_strategies.py lines 22-36).  `entry_time`
and `exit_time` are bar indices. -/
structure Trade where
  symbol : String
  trade_type : TradeType
  entry_price : ℚ
  entry_time : ℕ
  stop_loss : ℚ
  take_profit : List ℚ
  status : TradeStatus := TradeStatus.OPEN
  exit_price : Option ℚ := none
  exit_time : Option ℕ := none
  profit_pips : Option ℚ := none
  profit_percentage : Option ℚ := none
  exit_reason : Option String := none
deriving DecidableEq

instance : Inhabited Trade :=
  ⟨{ symbol := "", trade_type := TradeType.BUY, entry_price := 0, entry_time := 0,
     stop_loss := 0, take_profit := [] }⟩

/-- `Trade.calculate_risk_reward` (trading_strategies.py lines 38-53). -/
def Trade.calculate_risk_reward (t : Trade) : ℚ :=
  match t.take_profit with
  | [] => 0
  | tp0 :: _ =>
    let risk := match t.trade_type with
      | TradeType.BUY => t.entry_price - t.stop_loss
      | TradeType.SELL => t.stop_loss - t.entry_price
    let reward := match t.trade_type with
      | TradeType.BUY => tp0 - t.entry_price
      | TradeType.SELL => t.entry_price - tp0
    if risk ≤ 0 then 0 else reward / risk

/-- `Trade.calculate_profit` (trading_strategies.py lines 55-65):
(difference in pips, difference in percent of the entry price). -/
def Trade.calculate_profit (t : Trade) (current_price : ℚ) : ℚ × ℚ :=
  let diff_pips := match t.trade_type with
    | TradeType.BUY => current_price - t.entry_price
    | TradeType.SELL => t.entry_price - current_price
  (diff_pips, diff_pips / t.entry_price * 100)

/-- The five-field closing update every exit site of the source performs:
set exit price/time/status/reason and the realized profit. -/
def closeTrade (t : Trade) (price : ℚ) (time : ℕ) (st : TradeStatus)
    (reason : String) : Trade :=
  let p := t.calculate_profit price
  { t with exit_price := some price, exit_time := some time, status := st,
           exit_reason := some reason, profit_pips := some p.1,
           profit_percentage := some p.2 }

/-- The take-profit loop of `check_exit_conditions` (trading_strategies.py
lines 92-108): the levels are scanned in list order and the first one the
bar reaches closes the trade; `idx` carries the 0-based position for the
exit-reason string. -/
def checkTakeProfits (t : Trade) (high low : ℚ) (time : ℕ) :
    List ℚ → ℕ → Trade × Bool
  | [], _ => (t, false)
  | tp :: rest, idx =>
    if t.trade_type = TradeType.BUY ∧ tp ≤ high then
      (closeTrade t tp time TradeStatus.CLOSED_PROFIT
        ("Take-Profit " ++ toString (idx + 1)), true)
    else if t.trade_type = TradeType.SELL ∧ low ≤ tp then
      (closeTrade t tp time TradeStatus.CLOSED_PROFIT
        ("Take-Profit " ++ toString (idx + 1)), true)
    else checkTakeProfits t high low time rest (idx + 1)

/-- `Trade.check_exit_conditions` (trading_strategies.py lines 67-110):
a closed trade is returned untouched with result `false`; otherwise the
stop-loss is checked before any take-profit level. -/
def Trade.check_exit_conditions (t : Trade) (high low : ℚ) (time : ℕ) :
    Trade × Bool :=
  if t.status ≠ TradeStatus.OPEN then (t, false)
  else if t.trade_type = TradeType.BUY ∧ low ≤ t.stop_loss then
    (closeTrade t t.stop_loss time TradeStatus.CLOSED_LOSS "Stop-Loss", true)
  else if t.trade_type = TradeType.SELL ∧ t.stop_loss ≤ high then
    (closeTrade t t.stop_loss time TradeStatus.CLOSED_LOSS "Stop-Loss", true)
  else checkTakeProfits t high low time t.take_profit 0

/-- One OHLC bar of the input series (the columns the core reads). -/
structure OhlcBar where
  high : ℚ
  low : ℚ
  close : ℚ
deriving DecidableEq

instance : Inhabited OhlcBar := ⟨⟨0, 0, 0⟩⟩

/-- One row of a signals dataframe as `_simulate_trades` reads it: the OHLC
columns, the optional `atr` column (present when `use_atr_for_sl`), and the
signal flags.  The exit flags exist only in `RSIStrategy`'s frame and default
to false. -/
structure SignalsRow where
  high : ℚ := 0
  low : ℚ := 0
  close : ℚ := 0
  atr : Option ℚ := none
  buy_signal : Bool := false
  sell_signal : Bool := false
  exit_long_signal : Bool := false
  exit_short_signal : Bool := false
deriving DecidableEq

instance : Inhabited SignalsRow := ⟨{}⟩

/-- pandas `series.rolling(window := w, min_periods := minp).mean()`: at index
`i` the window holds the `min (i+1) w` values ending at `i`; the mean is NaN
(`none`) when fewer than `minp` values are available.  The plain
`rolling(window := w).mean()` of the strategies is `rollingMean w w`, the
`min_periods=1` variant of `calculate_technical_indicators` is
`rollingMean w 1`. -/
def rollingMean (w minp : ℕ) (xs : List ℚ) : List (Option ℚ) :=
  (List.range xs.length).map fun i =>
    let vals := (xs.take (i + 1)).drop (i + 1 - w)
    if minp ≤ vals.length then some (vals.sum / (vals.length : ℚ)) else none

/-- The recursion of pandas `series.ewm(span := s, adjust := False).mean()`
after the first value: `v i = α * x i + (1 - α) * v (i-1)`. -/
def emaGo (a prev : ℚ) : List ℚ → List ℚ
  | [] => []
  | x :: rest =>
    let v := a * x + (1 - a) * prev
    v :: emaGo a v rest

/-- pandas `series.ewm(span := s, adjust := False).mean()` with
`α = 2 / (s + 1)`; defined at every index, seeded with the first value. -/
def emaList (s : ℕ) : List ℚ → List ℚ
  | [] => []
  | x :: rest => x :: emaGo (2 / ((s : ℚ) + 1)) x rest

/-- pandas `series.diff()`: NaN at index 0, else the difference to the
previous value. -/
def deltaList (xs : List ℚ) : List (Option ℚ) :=
  match xs with
  | [] => []
  | x :: rest => none :: List.zipWith (fun a b => some (b - a)) (x :: rest) rest

/-- `delta.where(delta > 0, 0)`: keep positive differences, replace NaN and
non-positive values by 0 (a NaN comparison is false, so NaN is replaced). -/
def gainList (xs : List ℚ) : List ℚ :=
  (deltaList xs).map fun d => match d with
    | some v => if 0 < v then v else 0
    | none => 0

/-- `-delta.where(delta < 0, 0)`: the magnitude of negative differences. -/
def lossList (xs : List ℚ) : List ℚ :=
  (deltaList xs).map fun d => match d with
    | some v => if v < 0 then -v else 0
    | none => 0

/-- One point of `rsi = 100 - 100/(1 + avg_gain/avg_loss)` under float
semantics: `avg_loss = 0` with `avg_gain > 0` gives RS = +∞ and RSI 100;
`0/0` gives NaN; a NaN average propagates. -/
def rsiPoint : Option ℚ → Option ℚ → Option ℚ
  | some ag, some al =>
    if al = 0 then (if ag = 0 then none else some 100)
    else some (100 - 100 / (1 + ag / al))
  | _, _ => none

/-- The RSI column: gain/loss rolling means of window `w` with `minp` minimum
periods, then `100 - 100/(1+RS)` pointwise.  The strategies compute
`rsiSeries w w` (trading_strategies.py lines 413-420 and 639-646),
`calculate_technical_indicators` computes `rsiSeries 14 1`
(data_processing.py lines 120-127). -/
def rsiSeries (w minp : ℕ) (closes : List ℚ) : List (Option ℚ) :=
  List.zipWith rsiPoint (rollingMean w minp (gainList closes))
    (rollingMean w minp (lossList closes))

/-- The true-range column `max(high-low, |high-prev_close|, |low-prev_close|)`;
at index 0 the shifted closes are NaN and the row-wise max skips them, leaving
`high - low`. -/
def trueRanges (bars : List OhlcBar) : List ℚ :=
  match bars with
  | [] => []
  | b :: rest =>
    (b.high - b.low) ::
      List.zipWith
        (fun prev cur =>
          max (cur.high - cur.low)
            (max |cur.high - prev.close| |cur.low - prev.close|))
        (b :: rest) rest

/-- The ATR column `tr.rolling(window := w).mean()` (no `min_periods`), as in
trading_strategies.py lines 422-429 / 660-667 and data_processing.py lines
156-161. -/
def atrSeries (w : ℕ) (bars : List OhlcBar) : List (Option ℚ) :=
  rollingMean w w (trueRanges bars)

/-- Float `a < b` where either side may be NaN: false unless both defined. -/
def oLt (a b : Option ℚ) : Bool :=
  match a, b with
  | some x, some y => decide (x < y)
  | _, _ => false

/-- Float `a > b` where either side may be NaN: false unless both defined. -/
def oGt (a b : Option ℚ) : Bool :=
  match a, b with
  | some x, some y => decide (y < x)
  | _, _ => false

/-- The `ma_type` parameter: `"sma"` or `"ema"`. -/
inductive MAType where
  | sma
  | ema
deriving DecidableEq

/-- The `trade_direction` parameter: `"long"`, `"short"` or `"both"`. -/
inductive TradeDirection where
  | long
  | short
  | both
deriving DecidableEq

/-- The parameters of `MovingAverageCrossover` with the source's defaults
(trading_strategies.py lines 361-376). -/
structure MAConfig where
  fast_ma_period : ℕ := 9
  slow_ma_period : ℕ := 21
  ma_type : MAType := MAType.sma
  risk_reward_ratio : ℚ := 2.5
  stop_loss_pips : ℚ := 0.5
  take_profit_pips : List ℚ := [1.25, 2.0, 3.0]
  use_atr_for_sl : Bool := false
  atr_multiplier : ℚ := 1.5
  atr_period : ℕ := 14
  trade_direction : TradeDirection := TradeDirection.both
  use_rsi_filter : Bool := false
  rsi_period : ℕ := 14
  rsi_overbought : ℚ := 70
  rsi_oversold : ℚ := 30
deriving DecidableEq

/-- The parameters of `RSIStrategy` with the source's defaults
(trading_strategies.py lines 602-618). -/
structure RSIConfig where
  rsi_period : ℕ := 14
  rsi_overbought : ℚ := 70
  rsi_oversold : ℚ := 30
  exit_rsi_level : ℚ := 50
  use_ma_filter : Bool := false
  ma_period : ℕ := 200
  ma_type : MAType := MAType.sma
  risk_reward_ratio : ℚ := 2.5
  stop_loss_pips : ℚ := 0.5
  take_profit_pips : List ℚ := [1.25, 2.0, 3.0]
  use_atr_for_sl : Bool := false
  atr_multiplier : ℚ := 1.5
  atr_period : ℕ := 14
  trade_direction : TradeDirection := TradeDirection.both
  wait_for_exit_before_new_entry : Bool := true
deriving DecidableEq

/-- The entry parameters both strategies' `_simulate_trades` read; the two
source methods duplicate this code verbatim. -/
structure EntryParams where
  risk_reward_ratio : ℚ
  stop_loss_pips : ℚ
  take_profit_pips : List ℚ
  use_atr_for_sl : Bool
  atr_multiplier : ℚ
deriving DecidableEq

def MAConfig.entryParams (cfg : MAConfig) : EntryParams :=
  ⟨cfg.risk_reward_ratio, cfg.stop_loss_pips, cfg.take_profit_pips,
   cfg.use_atr_for_sl, cfg.atr_multiplier⟩

def RSIConfig.entryParams (cfg : RSIConfig) : EntryParams :=
  ⟨cfg.risk_reward_ratio, cfg.stop_loss_pips, cfg.take_profit_pips,
   cfg.use_atr_for_sl, cfg.atr_multiplier⟩

/-- The take-profit levels for an entry: percentage distances from the entry
price, above it for BUY, below it for SELL (trading_strategies.py lines
508, 555, 775, 837). -/
def tpLevels (tt : TradeType) (entry : ℚ) (pips : List ℚ) : List ℚ :=
  pips.map fun p => match tt with
    | TradeType.BUY => entry * (1 + p / 100)
    | TradeType.SELL => entry * (1 - p / 100)

/-- The stop-loss for an entry: a percentage distance from the entry price,
or an ATR multiple when `use_atr_for_sl` (trading_strategies.py lines
502-505, 549-552, 769-772, 831-834).  A NaN ATR (`none`) yields a NaN
stop-loss, which makes the source's `rr_ratio` 0 and so fails the admission
gate for every positive configured minimum ratio; the embedding returns
`none` and the caller rejects the entry, which matches the source whenever
`0 < risk_reward_ratio`. -/
def slLevel (p : EntryParams) (tt : TradeType) (entry : ℚ) (atr : Option ℚ) :
    Option ℚ :=
  if p.use_atr_for_sl then
    atr.map fun a => match tt with
      | TradeType.BUY => entry - a * p.atr_multiplier
      | TradeType.SELL => entry + a * p.atr_multiplier
  else
    some (match tt with
      | TradeType.BUY => entry * (1 - p.stop_loss_pips / 100)
      | TradeType.SELL => entry * (1 + p.stop_loss_pips / 100))

/-- The admission gate of both `_simulate_trades` methods
(trading_strategies.py lines 501-525, 548-572, 768-794, 830-856): compute
stop-loss and take-profit levels, reject unless the reward:risk for the first
take-profit level reaches the configured minimum, else open the trade.
An empty `take_profit_pips` would raise `IndexError` in the source
(`take_profit[0]`); theorems about this gate assume a non-empty list. -/
def openGate (p : EntryParams) (tt : TradeType) (entry : ℚ) (atr : Option ℚ)
    (time : ℕ) : Option Trade :=
  match slLevel p tt entry atr with
  | none => none
  | some sl =>
    match tpLevels tt entry p.take_profit_pips with
    | [] => none
    | tp0 :: rest =>
      let risk := match tt with
        | TradeType.BUY => entry - sl
        | TradeType.SELL => sl - entry
      let reward := match tt with
        | TradeType.BUY => tp0 - entry
        | TradeType.SELL => entry - tp0
      let rr_ratio := if 0 < risk then reward / risk else 0
      if p.risk_reward_ratio ≤ rr_ratio then
        some { symbol := "Unknown", trade_type := tt, entry_price := entry,
               entry_time := time, stop_loss := sl, take_profit := tp0 :: rest }
      else none

/-- The forward scan `for j in range(i+1, len(df))` of
`MovingAverageCrossover._simulate_trades` (lines 527-530, 574-577): apply
`check_exit_conditions` bar by bar and stop at the first close. -/
def runExits (t : Trade) : List (ℕ × SignalsRow) → Trade
  | [] => t
  | (j, r) :: rest =>
    let res := t.check_exit_conditions r.high r.low j
    if res.2 then res.1 else runExits res.1 rest

/-- `df['close'].iloc[-1]` of a signals frame. -/
def lastCloseOf (df : List SignalsRow) : ℚ :=
  (df.getD (df.length - 1) default).close

/-- The forced end-of-data close (trading_strategies.py lines 532-538,
580-585, 814-820, 876-881): a still-open trade exits at the last close,
classified by a strict comparison of exit and entry price. -/
def forceClose (df : List SignalsRow) (t : Trade) : Trade :=
  if t.status = TradeStatus.OPEN then
    let ep := lastCloseOf df
    let st := match t.trade_type with
      | TradeType.BUY =>
        if t.entry_price < ep then TradeStatus.CLOSED_PROFIT
        else TradeStatus.CLOSED_LOSS
      | TradeType.SELL =>
        if ep < t.entry_price then TradeStatus.CLOSED_PROFIT
        else TradeStatus.CLOSED_LOSS
    closeTrade t ep (df.length - 1) st "Konec backtestu"
  else t

/-- One signal's full treatment in `MovingAverageCrossover._simulate_trades`:
admission gate, forward scan, forced close of a survivor.  `none` when the
gate rejects the signal. -/
def MovingAverageCrossover.entryAt (cfg : MAConfig) (df : List SignalsRow)
    (i : ℕ) (tt : TradeType) : Option Trade :=
  match openGate cfg.entryParams tt (df.getD i default).close
      (df.getD i default).atr i with
  | none => none
  | some t0 =>
    let t1 := runExits t0 (df.enum.drop (i + 1))
    some (if t1.status = TradeStatus.OPEN then forceClose df t1 else t1)

/-- `MovingAverageCrossover._simulate_trades` (trading_strategies.py lines
488-588): the loop runs over `range(len(df) - 1)`; at each bar a buy signal
and then a sell signal may each append one simulated trade. -/
def MovingAverageCrossover.simulate_trades (cfg : MAConfig)
    (df : List SignalsRow) : List Trade :=
  (List.range (df.length - 1)).flatMap fun i =>
    let row := df.getD i default
    (if row.buy_signal then
      (MovingAverageCrossover.entryAt cfg df i TradeType.BUY).toList else [])
      ++ (if row.sell_signal then
        (MovingAverageCrossover.entryAt cfg df i TradeType.SELL).toList else [])

/-- `MovingAverageCrossover._apply_filters` (trading_strategies.py lines
459-486): the trade-direction filter, then the optional RSI filter; a NaN RSI
passes because both float comparisons are false. -/
def MovingAverageCrossover.apply_filters (cfg : MAConfig)
    (rsi : List (Option ℚ)) (i : ℕ) (tt : TradeType) : Bool :=
  if cfg.trade_direction = TradeDirection.long ∧ tt = TradeType.SELL then false
  else if cfg.trade_direction = TradeDirection.short ∧ tt = TradeType.BUY then
    false
  else if cfg.use_rsi_filter then
    match rsi.getD i none with
    | some r =>
      if tt = TradeType.BUY ∧ cfg.rsi_overbought ≤ r then false
      else if tt = TradeType.SELL ∧ r ≤ cfg.rsi_oversold then false
      else true
    | none => true
  else true

/-- The fast or slow moving-average column of
`MovingAverageCrossover.generate_signals` (trading_strategies.py lines
401-409): a plain rolling mean for `"sma"` (default `min_periods`, so NaN
during warm-up) or an `adjust=False` EMA. -/
def maLine (ty : MAType) (w : ℕ) (closes : List ℚ) : List (Option ℚ) :=
  match ty with
  | MAType.sma => rollingMean w w closes
  | MAType.ema => (emaList w closes).map some

/-- `MovingAverageCrossover.generate_signals` (trading_strategies.py lines
383-457).  A buy flag at bar `i ≥ 1` needs `fast < slow` at `i-1` and
`fast > slow` at `i`; the sell branch fires when neither of those holds
(the source's `elif not prev_fast_below_slow and not curr_fast_above_slow`).
Both pass `_apply_filters`. -/
def MovingAverageCrossover.generate_signals (cfg : MAConfig)
    (bars : List OhlcBar) : List SignalsRow :=
  let closes := bars.map OhlcBar.close
  let fast := maLine cfg.ma_type cfg.fast_ma_period closes
  let slow := maLine cfg.ma_type cfg.slow_ma_period closes
  let rsi := if cfg.use_rsi_filter then rsiSeries cfg.rsi_period cfg.rsi_period closes
    else []
  let atr := if cfg.use_atr_for_sl then atrSeries cfg.atr_period bars else []
  (List.range bars.length).map fun i =>
    let b := bars.getD i default
    let prev_fast_below_slow := oLt (fast.getD (i - 1) none) (slow.getD (i - 1) none)
    let curr_fast_above_slow := oGt (fast.getD i none) (slow.getD i none)
    { high := b.high, low := b.low, close := b.close,
      atr := if cfg.use_atr_for_sl then atr.getD i none else none,
      buy_signal := decide (1 ≤ i) && (prev_fast_below_slow && curr_fast_above_slow)
        && MovingAverageCrossover.apply_filters cfg rsi i TradeType.BUY,
      sell_signal := decide (1 ≤ i) && (!prev_fast_below_slow && !curr_fast_above_slow)
        && MovingAverageCrossover.apply_filters cfg rsi i TradeType.SELL }

/-- The RSI-exit close (trading_strategies.py lines 804-809, 866-871): exit
at the bar's close price, classified by a strict comparison with the entry
price, reason `"RSI Exit"`. -/
def rsiExitClose (t : Trade) (time : ℕ) (price : ℚ) : Trade :=
  let st := match t.trade_type with
    | TradeType.BUY =>
      if t.entry_price < price then TradeStatus.CLOSED_PROFIT
      else TradeStatus.CLOSED_LOSS
    | TradeType.SELL =>
      if price < t.entry_price then TradeStatus.CLOSED_PROFIT
      else TradeStatus.CLOSED_LOSS
  closeTrade t price time st "RSI Exit"

/-- The forward scan of `RSIStrategy._simulate_trades` (lines 796-811,
858-873): price exits via `check_exit_conditions` first, then the
direction's RSI exit flag at that bar's close. -/
def rsiInnerScan (t : Trade) : List (ℕ × SignalsRow) → Trade
  | [] => t
  | (j, r) :: rest =>
    let res := t.check_exit_conditions r.high r.low j
    if res.2 then res.1
    else if (match t.trade_type with
        | TradeType.BUY => r.exit_long_signal
        | TradeType.SELL => r.exit_short_signal) then
      rsiExitClose res.1 j r.close
    else rsiInnerScan res.1 rest

/-- One signal's full treatment in `RSIStrategy._simulate_trades`, returning
the simulated trade together with the value of the `active_long` /
`active_short` flag after the entry block: the source sets it `False` on
every closure path (lines 800, 810, 820 resp. 862, 872, 882). -/
def RSIStrategy.entryAt (cfg : RSIConfig) (df : List SignalsRow) (i : ℕ)
    (tt : TradeType) : Option (Trade × Bool) :=
  match openGate cfg.entryParams tt (df.getD i default).close
      (df.getD i default).atr i with
  | none => none
  | some t0 =>
    let t1 := rsiInnerScan t0 (df.enum.drop (i + 1))
    if t1.status = TradeStatus.OPEN then some (forceClose df t1, false)
    else some (t1, false)

/-- The loop state of `RSIStrategy._simulate_trades`. -/
structure RSISimState where
  active_long : Bool := false
  active_short : Bool := false
  trades : List Trade := []

/-- One gated entry block of `RSIStrategy._simulate_trades` (the buy block,
lines 764-823, or the sell block, lines 826-885): when the signal fires and
the direction is not blocked by an active trade under
`wait_for_exit_before_new_entry`, run the entry; an admitted trade is
appended and the active flag takes the value the block left it
(always `false`, see `RSIStrategy.entryAt`); a rejected signal leaves the
flag and the list alone. -/
def RSIStrategy.block (cfg : RSIConfig) (df : List SignalsRow) (i : ℕ)
    (tt : TradeType) (signal active : Bool) (trades : List Trade) :
    Bool × List Trade :=
  if signal && (!active || !cfg.wait_for_exit_before_new_entry) then
    match RSIStrategy.entryAt cfg df i tt with
    | some (t, a) => (a, trades ++ [t])
    | none => (active, trades)
  else (active, trades)

/-- One iteration of `RSIStrategy._simulate_trades`'s outer loop
(trading_strategies.py lines 754-885): clear the active flags on exit
signals, then the gated buy block, then the gated sell block. -/
def RSIStrategy.step (cfg : RSIConfig) (df : List SignalsRow)
    (st : RSISimState) (i : ℕ) : RSISimState :=
  let row := df.getD i default
  let aL0 := if st.active_long && row.exit_long_signal then false
    else st.active_long
  let aS0 := if st.active_short && row.exit_short_signal then false
    else st.active_short
  let afterBuy := RSIStrategy.block cfg df i TradeType.BUY row.buy_signal aL0
    st.trades
  let afterSell := RSIStrategy.block cfg df i TradeType.SELL row.sell_signal
    aS0 afterBuy.2
  { active_long := afterBuy.1, active_short := afterSell.1,
    trades := afterSell.2 }

/-- `RSIStrategy._simulate_trades` (trading_strategies.py lines 743-885). -/
def RSIStrategy.simulate_trades (cfg : RSIConfig) (df : List SignalsRow) :
    List Trade :=
  ((List.range (df.length - 1)).foldl (RSIStrategy.step cfg df) {}).trades

/-- The source's `profit_factor` value: a rational, or `float('inf')`. -/
inductive ProfitFactor where
  | fin (q : ℚ)
  | infinite
deriving DecidableEq

/-- The dictionary `_calculate_performance_metrics` returns
(trading_strategies.py lines 178-284).  The two early zero-returns of the
source omit the `closed_trades` key; here the field is 0 there, which is the
count they describe. -/
structure PerformanceMetrics where
  total_trades : ℕ
  closed_trades : ℕ
  winning_trades : ℕ
  losing_trades : ℕ
  win_rate : ℚ
  profit_factor : ProfitFactor
  max_drawdown : ℚ
  avg_profit : ℚ
  avg_loss : ℚ
  expectancy : ℚ
  total_profit : ℚ
deriving DecidableEq

/-- `t.profit_percentage` as the aggregator sums it.  Every closed trade of
the simulators carries a value; the source would raise on `None`. -/
def pctOf (t : Trade) : ℚ := t.profit_percentage.getD 0

/-- The closed trades: `status != OPEN`. -/
def closedOf (trades : List Trade) : List Trade :=
  trades.filter fun t => t.status ≠ TradeStatus.OPEN

def winningOf (trades : List Trade) : List Trade :=
  (closedOf trades).filter fun t => t.status = TradeStatus.CLOSED_PROFIT

def losingOf (trades : List Trade) : List Trade :=
  (closedOf trades).filter fun t => t.status = TradeStatus.CLOSED_LOSS

def grossProfitOf (trades : List Trade) : ℚ :=
  ((winningOf trades).map pctOf).sum

def grossLossOf (trades : List Trade) : ℚ :=
  |((losingOf trades).map pctOf).sum|

/-- The running-balance equity curve over trades in entry-time order,
skipping trades without a realized percentage (lines 256-262). -/
def equityCurve (bal : ℚ) : List Trade → List ℚ
  | [] => []
  | t :: rest =>
    match t.profit_percentage with
    | some p => (bal + p) :: equityCurve (bal + p) rest
    | none => equityCurve bal rest

/-- The peak-tracking drawdown scan (lines 264-270). -/
def maxDrawdownGo (peak mdd : ℚ) : List ℚ → ℚ
  | [] => mdd
  | b :: rest =>
    let peak1 := if peak < b then b else peak
    maxDrawdownGo peak1 (max mdd (peak1 - b)) rest

/-- `max_drawdown` (lines 252-270): closed trades sorted by entry time
(Python's stable sort; `insertionSort` is stable), then the peak scan. -/
def maxDrawdownOf (closed : List Trade) : ℚ :=
  maxDrawdownGo 0 0
    (equityCurve 0 (closed.insertionSort fun a b => a.entry_time ≤ b.entry_time))

/-- The all-zero metrics of the source's two early returns (lines 185-197,
206-218). -/
def zeroMetrics (total : ℕ) : PerformanceMetrics :=
  { total_trades := total, closed_trades := 0, winning_trades := 0,
    losing_trades := 0, win_rate := 0, profit_factor := ProfitFactor.fin 0,
    max_drawdown := 0, avg_profit := 0, avg_loss := 0, expectancy := 0,
    total_profit := 0 }

/-- `TradingStrategy._calculate_performance_metrics` (trading_strategies.py
lines 178-284). -/
def TradingStrategy.calculate_performance_metrics (trades : List Trade) :
    PerformanceMetrics :=
  if trades = [] then zeroMetrics 0
  else
    let closed := closedOf trades
    if closed = [] then zeroMetrics trades.length
    else
      let winning := winningOf trades
      let losing := losingOf trades
      let win_rate : ℚ :=
        if 0 < closed.length then (winning.length : ℚ) / (closed.length : ℚ)
        else 0
      let total_profit := (closed.map pctOf).sum
      let gross_profit := if winning = [] then 0 else (winning.map pctOf).sum
      let gross_loss := if losing = [] then 0 else |((losing.map pctOf).sum)|
      let profit_factor :=
        if 0 < gross_loss then ProfitFactor.fin (gross_profit / gross_loss)
        else if 0 < gross_profit then ProfitFactor.infinite
        else ProfitFactor.fin 0
      let avg_profit :=
        if 0 < winning.length then gross_profit / (winning.length : ℚ) else 0
      let avg_loss :=
        if 0 < losing.length then gross_loss / (losing.length : ℚ) else 0
      let expectancy := win_rate * avg_profit - (1 - win_rate) * avg_loss
      { total_trades := trades.length, closed_trades := closed.length,
        winning_trades := winning.length, losing_trades := losing.length,
        win_rate := win_rate, profit_factor := profit_factor,
        max_drawdown := maxDrawdownOf closed, avg_profit := avg_profit,
        avg_loss := avg_loss, expectancy := expectancy,
        total_profit := total_profit }

/-! ### Concrete inputs used by witnesses and counterexamples -/

/-- A two-bar signals frame: a buy signal at bar 0, then a bar whose high
reaches every default take-profit level. -/
def demoBuyDf : List SignalsRow :=
  [{ high := 100, low := 100, close := 100, buy_signal := true },
   { high := 200, low := 100, close := 150 }]

/-- A signals frame with buy signals on two consecutive bars; the trade
opened at bar 0 only closes at bar 3 (its first default take-profit is
101.25). -/
def overlapDf : List SignalsRow :=
  [{ high := 100, low := 100, close := 100, buy_signal := true },
   { high := 100, low := 100, close := 100, buy_signal := true },
   { high := 100, low := 100, close := 100 },
   { high := 102, low := 100, close := 101 }]

/-- A signals frame whose only signal sits on the final bar. -/
def lastBarSignalDf : List SignalsRow :=
  [{ high := 100, low := 100, close := 100 },
   { high := 100, low := 100, close := 100, buy_signal := true,
     sell_signal := true }]

/-- A flat two-bar series: every price equal. -/
def flatBars : List OhlcBar := [⟨5, 5, 5⟩, ⟨5, 5, 5⟩]

/-- An open BUY trade with stop-loss 99 and take-profit levels 101, 102. -/
def openBuyTrade : Trade :=
  { symbol := "Unknown", trade_type := TradeType.BUY, entry_price := 100,
    entry_time := 0, stop_loss := 99, take_profit := [101, 102] }

/-- A closed winning trade at +2 percent, entered at bar `n`. -/
def winTrade (n : ℕ) : Trade :=
  { symbol := "Unknown", trade_type := TradeType.BUY, entry_price := 100,
    entry_time := n, stop_loss := 99, take_profit := [102],
    status := TradeStatus.CLOSED_PROFIT, exit_price := some 102,
    exit_time := some (n + 1), profit_pips := some 2,
    profit_percentage := some 2, exit_reason := some "Take-Profit 1" }

/-- A closed losing trade at -1 percent, entered at bar `n`. -/
def lossTrade (n : ℕ) : Trade :=
  { symbol := "Unknown", trade_type := TradeType.BUY, entry_price := 100,
    entry_time := n, stop_loss := 99, take_profit := [102],
    status := TradeStatus.CLOSED_LOSS, exit_price := some 99,
    exit_time := some (n + 1), profit_pips := some (-1),
    profit_percentage := some (-1), exit_reason := some "Stop-Loss" }

/-- The aggregator example of the specification: 10 closed trades, 6 winners
at +2 percent and 4 losers at -1 percent. -/
def exampleTrades : List Trade :=
  (List.range 6).map winTrade ++ (List.range 4).map fun n => lossTrade (6 + n)

/-! ### Helper lemmas: which fields each operation can touch -/

/-- The entry-side fields `calculate_risk_reward` reads agree. -/
def coreEq (a b : Trade) : Prop :=
  a.trade_type = b.trade_type ∧ a.entry_price = b.entry_price ∧
    a.stop_loss = b.stop_loss ∧ a.take_profit = b.take_profit

lemma coreEq_refl (a : Trade) : coreEq a a := ⟨rfl, rfl, rfl, rfl⟩

lemma coreEq_trans {a b c : Trade} (h1 : coreEq a b) (h2 : coreEq b c) :
    coreEq a c :=
  ⟨h1.1.trans h2.1, h1.2.1.trans h2.2.1, h1.2.2.1.trans h2.2.2.1,
   h1.2.2.2.trans h2.2.2.2⟩

lemma closeTrade_coreEq (t : Trade) (p : ℚ) (j : ℕ) (st : TradeStatus)
    (r : String) : coreEq (closeTrade t p j st r) t :=
  ⟨rfl, rfl, rfl, rfl⟩

lemma closeTrade_status (t : Trade) (p : ℚ) (j : ℕ) (st : TradeStatus)
    (r : String) : (closeTrade t p j st r).status = st := rfl

lemma calculate_risk_reward_congr {a b : Trade} (h : coreEq a b) :
    a.calculate_risk_reward = b.calculate_risk_reward := by
  obtain ⟨h1, h2, h3, h4⟩ := h
  unfold Trade.calculate_risk_reward
  rw [h1, h2, h3, h4]

lemma checkTakeProfits_coreEq (t : Trade) (hi lo : ℚ) (j : ℕ) :
    ∀ (tps : List ℚ) (idx : ℕ),
      coreEq (checkTakeProfits t hi lo j tps idx).1 t := by
  intro tps
  induction tps with
  | nil => intro idx; exact coreEq_refl t
  | cons tp rest ih =>
    intro idx
    unfold checkTakeProfits
    split
    · exact closeTrade_coreEq t tp j _ _
    · split
      · exact closeTrade_coreEq t tp j _ _
      · exact ih (idx + 1)

lemma checkTakeProfits_status (t : Trade) (hi lo : ℚ) (j : ℕ) :
    ∀ (tps : List ℚ) (idx : ℕ),
      (checkTakeProfits t hi lo j tps idx).1.status = t.status ∨
        (checkTakeProfits t hi lo j tps idx).1.status =
          TradeStatus.CLOSED_PROFIT := by
  intro tps
  induction tps with
  | nil => intro idx; exact Or.inl rfl
  | cons tp rest ih =>
    intro idx
    unfold checkTakeProfits
    split
    · exact Or.inr rfl
    · split
      · exact Or.inr rfl
      · exact ih (idx + 1)

lemma checkTakeProfits_of_false (t : Trade) (hi lo : ℚ) (j : ℕ) :
    ∀ (tps : List ℚ) (idx : ℕ),
      (checkTakeProfits t hi lo j tps idx).2 = false →
        (checkTakeProfits t hi lo j tps idx).1 = t := by
  intro tps
  induction tps with
  | nil => intro idx _; rfl
  | cons tp rest ih =>
    intro idx
    unfold checkTakeProfits
    split
    · intro h; simp at h
    · split
      · intro h; simp at h
      · exact ih (idx + 1)

lemma check_exit_of_closed {t : Trade} (hi lo : ℚ) (j : ℕ)
    (h : t.status ≠ TradeStatus.OPEN) :
    t.check_exit_conditions hi lo j = (t, false) := by
  unfold Trade.check_exit_conditions
  rw [if_pos h]

lemma check_exit_coreEq (t : Trade) (hi lo : ℚ) (j : ℕ) :
    coreEq (t.check_exit_conditions hi lo j).1 t := by
  unfold Trade.check_exit_conditions
  split
  · exact coreEq_refl t
  · split
    · exact closeTrade_coreEq t _ j _ _
    · split
      · exact closeTrade_coreEq t _ j _ _
      · exact checkTakeProfits_coreEq t hi lo j t.take_profit 0

lemma check_exit_status (t : Trade) (hi lo : ℚ) (j : ℕ) :
    (t.check_exit_conditions hi lo j).1.status = t.status ∨
      (t.check_exit_conditions hi lo j).1.status = TradeStatus.CLOSED_LOSS ∨
      (t.check_exit_conditions hi lo j).1.status = TradeStatus.CLOSED_PROFIT := by
  unfold Trade.check_exit_conditions
  split
  · exact Or.inl rfl
  · split
    · exact Or.inr (Or.inl rfl)
    · split
      · exact Or.inr (Or.inl rfl)
      · rcases checkTakeProfits_status t hi lo j t.take_profit 0 with h | h
        · exact Or.inl h
        · exact Or.inr (Or.inr h)

lemma check_exit_of_false (t : Trade) (hi lo : ℚ) (j : ℕ) :
    (t.check_exit_conditions hi lo j).2 = false →
      (t.check_exit_conditions hi lo j).1 = t := by
  unfold Trade.check_exit_conditions
  split
  · intro _; rfl
  · split
    · intro h; simp at h
    · split
      · intro h; simp at h
      · exact checkTakeProfits_of_false t hi lo j t.take_profit 0

lemma runExits_coreEq : ∀ (rows : List (ℕ × SignalsRow)) (t : Trade),
    coreEq (runExits t rows) t := by
  intro rows
  induction rows with
  | nil => intro t; exact coreEq_refl t
  | cons jr rest ih =>
    intro t
    unfold runExits
    dsimp only
    split
    · exact check_exit_coreEq t jr.2.high jr.2.low jr.1
    · exact coreEq_trans (ih _) (check_exit_coreEq t jr.2.high jr.2.low jr.1)

lemma runExits_status : ∀ (rows : List (ℕ × SignalsRow)) (t : Trade),
    (runExits t rows).status = t.status ∨
      (runExits t rows).status = TradeStatus.CLOSED_LOSS ∨
      (runExits t rows).status = TradeStatus.CLOSED_PROFIT := by
  intro rows
  induction rows with
  | nil => intro t; exact Or.inl rfl
  | cons jr rest ih =>
    intro t
    unfold runExits
    dsimp only
    split
    · exact check_exit_status t jr.2.high jr.2.low jr.1
    · rcases ih (t.check_exit_conditions jr.2.high jr.2.low jr.1).1 with h | h
      · rw [h]
        exact check_exit_status t jr.2.high jr.2.low jr.1
      · exact Or.inr h

lemma forceClose_coreEq (d : List SignalsRow) (t : Trade) :
    coreEq (forceClose d t) t := by
  unfold forceClose
  split
  · exact closeTrade_coreEq t _ _ _ _
  · exact coreEq_refl t

lemma forceClose_of_closed (d : List SignalsRow) (t : Trade)
    (h : t.status ≠ TradeStatus.OPEN) : forceClose d t = t := by
  unfold forceClose
  rw [if_neg h]

lemma forceClose_status_of_open (d : List SignalsRow) (t : Trade)
    (h : t.status = TradeStatus.OPEN) :
    (forceClose d t).status = TradeStatus.CLOSED_PROFIT ∨
      (forceClose d t).status = TradeStatus.CLOSED_LOSS := by
  unfold forceClose
  rw [if_pos h]
  rw [closeTrade_status]
  cases t.trade_type <;> dsimp only <;> split
  · exact Or.inl rfl
  · exact Or.inr rfl
  · exact Or.inl rfl
  · exact Or.inr rfl

lemma forceClose_fields_of_open (d : List SignalsRow) (t : Trade)
    (h : t.status = TradeStatus.OPEN) :
    (forceClose d t).exit_price = some (lastCloseOf d) ∧
      (forceClose d t).exit_time = some (d.length - 1) ∧
      (forceClose d t).exit_reason = some "Konec backtestu" := by
  unfold forceClose
  rw [if_pos h]
  exact ⟨rfl, rfl, rfl⟩

lemma forceClose_even_is_loss (d : List SignalsRow) (t : Trade)
    (h : t.status = TradeStatus.OPEN) (he : lastCloseOf d = t.entry_price) :
    (forceClose d t).status = TradeStatus.CLOSED_LOSS := by
  unfold forceClose
  rw [if_pos h, closeTrade_status, he]
  cases t.trade_type <;> dsimp only <;> rw [if_neg (lt_irrefl t.entry_price)]

lemma rsiExitClose_coreEq (t : Trade) (j : ℕ) (c : ℚ) :
    coreEq (rsiExitClose t j c) t := closeTrade_coreEq t c j _ _

lemma rsiExitClose_status (t : Trade) (j : ℕ) (c : ℚ) :
    (rsiExitClose t j c).status = TradeStatus.CLOSED_PROFIT ∨
      (rsiExitClose t j c).status = TradeStatus.CLOSED_LOSS := by
  unfold rsiExitClose
  rw [closeTrade_status]
  cases t.trade_type <;> dsimp only <;> split
  · exact Or.inl rfl
  · exact Or.inr rfl
  · exact Or.inl rfl
  · exact Or.inr rfl

lemma rsiExitClose_even_is_loss (t : Trade) (j : ℕ) (c : ℚ)
    (he : c = t.entry_price) :
    (rsiExitClose t j c).status = TradeStatus.CLOSED_LOSS := by
  unfold rsiExitClose
  rw [closeTrade_status, he]
  cases t.trade_type <;> dsimp only <;> rw [if_neg (lt_irrefl t.entry_price)]

lemma rsiInnerScan_coreEq : ∀ (rows : List (ℕ × SignalsRow)) (t : Trade),
    coreEq (rsiInnerScan t rows) t := by
  intro rows
  induction rows with
  | nil => intro t; exact coreEq_refl t
  | cons jr rest ih =>
    intro t
    unfold rsiInnerScan
    dsimp only
    split
    · exact check_exit_coreEq t jr.2.high jr.2.low jr.1
    · split
      · exact coreEq_trans (rsiExitClose_coreEq _ jr.1 jr.2.close)
          (check_exit_coreEq t jr.2.high jr.2.low jr.1)
      · exact coreEq_trans (ih _) (check_exit_coreEq t jr.2.high jr.2.low jr.1)

lemma rsiInnerScan_status : ∀ (rows : List (ℕ × SignalsRow)) (t : Trade),
    (rsiInnerScan t rows).status = t.status ∨
      (rsiInnerScan t rows).status = TradeStatus.CLOSED_LOSS ∨
      (rsiInnerScan t rows).status = TradeStatus.CLOSED_PROFIT := by
  intro rows
  induction rows with
  | nil => intro t; exact Or.inl rfl
  | cons jr rest ih =>
    intro t
    unfold rsiInnerScan
    dsimp only
    split
    · exact check_exit_status t jr.2.high jr.2.low jr.1
    · split
      · rcases rsiExitClose_status (t.check_exit_conditions jr.2.high jr.2.low jr.1).1
            jr.1 jr.2.close with h | h
        · exact Or.inr (Or.inr h)
        · exact Or.inr (Or.inl h)
      · rcases ih (t.check_exit_conditions jr.2.high jr.2.low jr.1).1 with h | h
        · rw [h]
          exact check_exit_status t jr.2.high jr.2.low jr.1
        · exact Or.inr h

lemma openGate_some {p : EntryParams} {tt : TradeType} {e : ℚ} {atr : Option ℚ}
    {j : ℕ} {t : Trade} (hg : openGate p tt e atr j = some t) :
    t.trade_type = tt ∧ t.entry_time = j ∧ t.status = TradeStatus.OPEN ∧
      (0 < p.risk_reward_ratio →
        p.risk_reward_ratio ≤ t.calculate_risk_reward) := by
  unfold openGate at hg
  rcases hsl : slLevel p tt e atr with _ | sl
  · rw [hsl] at hg; exact absurd hg (by simp)
  · rw [hsl] at hg
    rcases htp : tpLevels tt e p.take_profit_pips with _ | ⟨tp0, rest⟩
    · rw [htp] at hg; exact absurd hg (by simp)
    · rw [htp] at hg
      dsimp only at hg
      split at hg
      · rename_i hrisk
        split at hg
        · rename_i hrr
          injection hg with ht
          subst ht
          refine ⟨rfl, rfl, rfl, ?_⟩
          intro _
          unfold Trade.calculate_risk_reward
          dsimp only
          cases tt <;> dsimp only at hrisk hrr ⊢ <;>
            rw [if_neg (not_le.mpr hrisk)] <;> exact hrr
        · exact absurd hg (by simp)
      · rename_i hrisk
        split at hg
        · rename_i hrr
          injection hg with ht
          subst ht
          refine ⟨rfl, rfl, rfl, ?_⟩
          intro hpos
          exact absurd (lt_of_lt_of_le hpos hrr) (lt_irrefl 0)
        · exact absurd hg (by simp)

lemma MA_entryAt_some {cfg : MAConfig} {df : List SignalsRow} {i : ℕ}
    {tt : TradeType} {t : Trade}
    (h : MovingAverageCrossover.entryAt cfg df i tt = some t) :
    (0 < cfg.risk_reward_ratio →
      cfg.risk_reward_ratio ≤ t.calculate_risk_reward) ∧
      (t.status = TradeStatus.CLOSED_PROFIT ∨
        t.status = TradeStatus.CLOSED_LOSS) := by
  unfold MovingAverageCrossover.entryAt at h
  rcases hg : openGate cfg.entryParams tt (df.getD i default).close
      (df.getD i default).atr i with _ | t0
  · rw [hg] at h; exact absurd h (by simp)
  · rw [hg] at h
    dsimp only at h
    injection h with ht
    obtain ⟨htt, hti, hst, hrr⟩ := openGate_some hg
    subst ht
    constructor
    · intro hpos
      have hcore : coreEq (if (runExits t0 (df.enum.drop (i + 1))).status =
            TradeStatus.OPEN
          then forceClose df (runExits t0 (df.enum.drop (i + 1)))
          else runExits t0 (df.enum.drop (i + 1))) t0 := by
        split
        · exact coreEq_trans (forceClose_coreEq df _) (runExits_coreEq _ t0)
        · exact runExits_coreEq _ t0
      rw [calculate_risk_reward_congr hcore]
      exact hrr hpos
    · split
      · rename_i hopen
        exact forceClose_status_of_open df _ hopen
      · rename_i hnopen
        rcases runExits_status (df.enum.drop (i + 1)) t0 with hs | hs | hs
        · exact absurd (hs.trans hst) hnopen
        · exact Or.inr hs
        · exact Or.inl hs

lemma RSI_entryAt_some {cfg : RSIConfig} {df : List SignalsRow} {i : ℕ}
    {tt : TradeType} {t : Trade} {a : Bool}
    (h : RSIStrategy.entryAt cfg df i tt = some (t, a)) :
    (0 < cfg.risk_reward_ratio →
      cfg.risk_reward_ratio ≤ t.calculate_risk_reward) ∧
      (t.status = TradeStatus.CLOSED_PROFIT ∨
        t.status = TradeStatus.CLOSED_LOSS) := by
  unfold RSIStrategy.entryAt at h
  rcases hg : openGate cfg.entryParams tt (df.getD i default).close
      (df.getD i default).atr i with _ | t0
  · rw [hg] at h; exact absurd h (by simp)
  · rw [hg] at h
    dsimp only at h
    obtain ⟨htt, hti, hst, hrr⟩ := openGate_some hg
    split at h
    · rename_i hopen
      injection h with hpair
      have ht : t = forceClose df (rsiInnerScan t0 (df.enum.drop (i + 1))) :=
        (congrArg Prod.fst hpair).symm
      subst ht
      refine ⟨?_, forceClose_status_of_open df _ hopen⟩
      intro hpos
      rw [calculate_risk_reward_congr
        (coreEq_trans (forceClose_coreEq df _) (rsiInnerScan_coreEq _ t0))]
      exact hrr hpos
    · rename_i hnopen
      injection h with hpair
      have ht : t = rsiInnerScan t0 (df.enum.drop (i + 1)) :=
        (congrArg Prod.fst hpair).symm
      subst ht
      constructor
      · intro hpos
        rw [calculate_risk_reward_congr (rsiInnerScan_coreEq _ t0)]
        exact hrr hpos
      · rcases rsiInnerScan_status (df.enum.drop (i + 1)) t0 with hs | hs | hs
        · exact absurd (hs.trans hst) hnopen
        · exact Or.inr hs
        · exact Or.inl hs

lemma MA_mem_simulate {cfg : MAConfig} {df : List SignalsRow} {t : Trade}
    (h : t ∈ MovingAverageCrossover.simulate_trades cfg df) :
    ∃ i tt, MovingAverageCrossover.entryAt cfg df i tt = some t := by
  unfold MovingAverageCrossover.simulate_trades at h
  rw [List.mem_flatMap] at h
  obtain ⟨i, _, hmem⟩ := h
  dsimp only at hmem
  rw [List.mem_append] at hmem
  rcases hmem with hm | hm
  · split at hm
    · rw [Option.mem_toList, Option.mem_def] at hm
      exact ⟨i, TradeType.BUY, hm⟩
    · simp at hm
  · split at hm
    · rw [Option.mem_toList, Option.mem_def] at hm
      exact ⟨i, TradeType.SELL, hm⟩
    · simp at hm

lemma MA_simulate_no_signals {cfg : MAConfig} {df : List SignalsRow}
    (h : ∀ i, i + 1 < df.length → (df.getD i default).buy_signal = false ∧
      (df.getD i default).sell_signal = false) :
    MovingAverageCrossover.simulate_trades cfg df = [] := by
  unfold MovingAverageCrossover.simulate_trades
  rw [List.flatMap_eq_nil_iff]
  intro i hi
  rw [List.mem_range] at hi
  have h2 := h i (by omega)
  dsimp only
  rw [h2.1, h2.2]
  simp

lemma RSI_block_mem {cfg : RSIConfig} {df : List SignalsRow} {i : ℕ}
    {tt : TradeType} {s a : Bool} {l : List Trade} {t : Trade}
    (h : t ∈ (RSIStrategy.block cfg df i tt s a l).2) :
    t ∈ l ∨ ∃ b, RSIStrategy.entryAt cfg df i tt = some (t, b) := by
  unfold RSIStrategy.block at h
  split at h
  · rcases he : RSIStrategy.entryAt cfg df i tt with _ | ⟨tb, ab⟩ <;>
      rw [he] at h
    · exact Or.inl h
    · dsimp only at h
      rcases List.mem_append.mp h with h2 | h2
      · exact Or.inl h2
      · rcases List.mem_singleton.mp h2 with rfl
        exact Or.inr ⟨ab, rfl⟩
  · exact Or.inl h

lemma RSI_block_no_signal (cfg : RSIConfig) (df : List SignalsRow) (i : ℕ)
    (tt : TradeType) (a : Bool) (l : List Trade) :
    RSIStrategy.block cfg df i tt false a l = (a, l) := by
  unfold RSIStrategy.block
  simp

lemma RSI_step_mem {cfg : RSIConfig} {df : List SignalsRow} {st : RSISimState}
    {i : ℕ} {t : Trade} (h : t ∈ (RSIStrategy.step cfg df st i).trades) :
    t ∈ st.trades ∨ ∃ tt a, RSIStrategy.entryAt cfg df i tt = some (t, a) := by
  unfold RSIStrategy.step at h
  dsimp only at h
  rcases RSI_block_mem h with h2 | h2
  · rcases RSI_block_mem h2 with h3 | h3
    · exact Or.inl h3
    · exact Or.inr ⟨TradeType.BUY, h3⟩
  · exact Or.inr ⟨TradeType.SELL, h2⟩

lemma RSI_foldl_mem {cfg : RSIConfig} {df : List SignalsRow} :
    ∀ (l : List ℕ) (st : RSISimState) (t : Trade),
      t ∈ (l.foldl (RSIStrategy.step cfg df) st).trades →
      t ∈ st.trades ∨
        ∃ i ∈ l, ∃ tt a, RSIStrategy.entryAt cfg df i tt = some (t, a) := by
  intro l
  induction l with
  | nil => intro st t h; exact Or.inl h
  | cons x xs ih =>
    intro st t h
    rw [List.foldl_cons] at h
    rcases ih _ t h with h2 | ⟨i, hi, htta⟩
    · rcases RSI_step_mem h2 with h3 | h3
      · exact Or.inl h3
      · exact Or.inr ⟨x, List.mem_cons_self x xs, h3⟩
    · exact Or.inr ⟨i, List.mem_cons_of_mem x hi, htta⟩

lemma RSI_mem_simulate {cfg : RSIConfig} {df : List SignalsRow} {t : Trade}
    (h : t ∈ RSIStrategy.simulate_trades cfg df) :
    ∃ i tt a, RSIStrategy.entryAt cfg df i tt = some (t, a) := by
  unfold RSIStrategy.simulate_trades at h
  rcases RSI_foldl_mem _ _ t h with h2 | ⟨i, _, tt, a, htta⟩
  · simp at h2
  · exact ⟨i, tt, a, htta⟩

lemma RSI_step_no_signal {cfg : RSIConfig} {df : List SignalsRow}
    {st : RSISimState} {i : ℕ}
    (hb : (df.getD i default).buy_signal = false)
    (hs : (df.getD i default).sell_signal = false) :
    (RSIStrategy.step cfg df st i).trades = st.trades := by
  unfold RSIStrategy.step
  dsimp only
  rw [hb, hs, RSI_block_no_signal, RSI_block_no_signal]

lemma RSI_foldl_no_signal {cfg : RSIConfig} {df : List SignalsRow} :
    ∀ (l : List ℕ) (st : RSISimState),
      (∀ i ∈ l, (df.getD i default).buy_signal = false ∧
        (df.getD i default).sell_signal = false) →
      (l.foldl (RSIStrategy.step cfg df) st).trades = st.trades := by
  intro l
  induction l with
  | nil => intro st _; rfl
  | cons x xs ih =>
    intro st h
    rw [List.foldl_cons]
    rw [ih _ fun i hi => h i (List.mem_cons_of_mem x hi)]
    exact RSI_step_no_signal (h x (List.mem_cons_self x xs)).1
      (h x (List.mem_cons_self x xs)).2

lemma getD_mem {α : Type} (l : List α) (i : ℕ) (d : α) (h : i < l.length) :
    l.getD i d ∈ l := by
  rw [List.getD_eq_getElem?_getD, List.getElem?_eq_getElem h]
  exact List.getElem_mem h

/-! ### The claims -/

/-- C1.  Every trade either strategy's `_simulate_trades` admits into the
trades list satisfies `calculate_risk_reward() ≥` the configured
`risk_reward_ratio`: the admission gate computes the same reward:risk as
`calculate_risk_reward` does from the stored entry/stop-loss/take-profit, and
a signal below the minimum creates no `Trade`.  Stated for any positive
configured minimum (the default is 2.5); with a non-positive minimum the
source can admit a trade whose stop-loss is NaN, outside this rational
model. -/
theorem risk_reward_admission_gate (cfgM : MAConfig) (cfgR : RSIConfig)
    (df : List SignalsRow) (hM : 0 < cfgM.risk_reward_ratio)
    (hR : 0 < cfgR.risk_reward_ratio) :
    (∀ t ∈ MovingAverageCrossover.simulate_trades cfgM df,
      cfgM.risk_reward_ratio ≤ t.calculate_risk_reward) ∧
      (∀ t ∈ RSIStrategy.simulate_trades cfgR df,
        cfgR.risk_reward_ratio ≤ t.calculate_risk_reward) := by
  constructor
  · intro t ht
    obtain ⟨i, tt, he⟩ := MA_mem_simulate ht
    exact (MA_entryAt_some he).1 hM
  · intro t ht
    obtain ⟨i, tt, a, he⟩ := RSI_mem_simulate ht
    exact (RSI_entryAt_some he).1 hR

/-- C1 witness: on a concrete two-bar signals frame with the default
configurations, the moving-average simulator admits one trade and its
realized risk:reward is at least the configured 2.5 minimum. -/
theorem risk_reward_admission_gate_witness :
    0 < ({} : MAConfig).risk_reward_ratio ∧
      0 < ({} : RSIConfig).risk_reward_ratio ∧
      (MovingAverageCrossover.simulate_trades {} demoBuyDf).length = 1 ∧
      ({} : MAConfig).risk_reward_ratio ≤
        ((MovingAverageCrossover.simulate_trades {} demoBuyDf).getD 0
          default).calculate_risk_reward :=
  ⟨by norm_num, by norm_num,
   by with_unfolding_all decide,
   (risk_reward_admission_gate {} {} demoBuyDf
      (by norm_num) (by norm_num)).1 _
    (getD_mem _ _ _ (by with_unfolding_all decide))⟩

/-- C2.  No trade of a final backtest result is OPEN, for either strategy on
any signals frame and configuration; and the forced end-of-data close exits
at the last bar's close at the last bar's time, with reason
`"Konec backtestu"` ("end of backtest"), classified CLOSED_PROFIT or
CLOSED_LOSS by comparing exit and entry price. -/
theorem no_open_trades_after_backtest (cfgM : MAConfig) (cfgR : RSIConfig)
    (df : List SignalsRow) :
    (∀ t ∈ MovingAverageCrossover.simulate_trades cfgM df,
      t.status ≠ TradeStatus.OPEN) ∧
      (∀ t ∈ RSIStrategy.simulate_trades cfgR df,
        t.status ≠ TradeStatus.OPEN) ∧
      (∀ (d : List SignalsRow) (t : Trade), t.status = TradeStatus.OPEN →
        (forceClose d t).exit_price = some (lastCloseOf d) ∧
          (forceClose d t).exit_time = some (d.length - 1) ∧
          (forceClose d t).exit_reason = some "Konec backtestu" ∧
          ((forceClose d t).status = TradeStatus.CLOSED_PROFIT ∨
            (forceClose d t).status = TradeStatus.CLOSED_LOSS)) := by
  refine ⟨?_, ?_, ?_⟩
  · intro t ht
    obtain ⟨i, tt, he⟩ := MA_mem_simulate ht
    rcases (MA_entryAt_some he).2 with hs | hs <;> rw [hs] <;> simp
  · intro t ht
    obtain ⟨i, tt, a, he⟩ := RSI_mem_simulate ht
    rcases (RSI_entryAt_some he).2 with hs | hs <;> rw [hs] <;> simp
  · intro d t hopen
    obtain ⟨h1, h2, h3⟩ := forceClose_fields_of_open d t hopen
    exact ⟨h1, h2, h3, forceClose_status_of_open d t hopen⟩

/-- C2 witness: the concrete two-bar run admits one trade and its status is
not OPEN. -/
theorem no_open_trades_after_backtest_witness :
    (MovingAverageCrossover.simulate_trades {} demoBuyDf).length = 1 ∧
      ((MovingAverageCrossover.simulate_trades {} demoBuyDf).getD 0
        default).status ≠ TradeStatus.OPEN :=
  ⟨by with_unfolding_all decide,
   (no_open_trades_after_backtest {} {} demoBuyDf).1 _
    (getD_mem _ _ _ (by with_unfolding_all decide))⟩

/-- C9.  No core operation assigns CLOSED_EVEN: every simulated trade of
either strategy ends CLOSED_PROFIT or CLOSED_LOSS; and because both closing
comparisons are strict, an exit exactly at the entry price — a forced
end-of-data close or an RSI exit at entry — is classified CLOSED_LOSS. -/
theorem no_closed_even_status (cfgM : MAConfig) (cfgR : RSIConfig)
    (df : List SignalsRow) :
    (∀ t ∈ MovingAverageCrossover.simulate_trades cfgM df,
      t.status = TradeStatus.CLOSED_PROFIT ∨
        t.status = TradeStatus.CLOSED_LOSS) ∧
      (∀ t ∈ RSIStrategy.simulate_trades cfgR df,
        t.status = TradeStatus.CLOSED_PROFIT ∨
          t.status = TradeStatus.CLOSED_LOSS) ∧
      (∀ (d : List SignalsRow) (t : Trade), t.status = TradeStatus.OPEN →
        lastCloseOf d = t.entry_price →
        (forceClose d t).status = TradeStatus.CLOSED_LOSS) ∧
      (∀ (t : Trade) (j : ℕ),
        (rsiExitClose t j t.entry_price).status = TradeStatus.CLOSED_LOSS) := by
  refine ⟨?_, ?_, ?_, ?_⟩
  · intro t ht
    obtain ⟨i, tt, he⟩ := MA_mem_simulate ht
    exact (MA_entryAt_some he).2
  · intro t ht
    obtain ⟨i, tt, a, he⟩ := RSI_mem_simulate ht
    exact (RSI_entryAt_some he).2
  · exact forceClose_even_is_loss
  · intro t j
    exact rsiExitClose_even_is_loss t j t.entry_price rfl

/-- C9 witness: the concrete two-bar run's one trade is CLOSED_PROFIT or
CLOSED_LOSS (never CLOSED_EVEN). -/
theorem no_closed_even_status_witness :
    (MovingAverageCrossover.simulate_trades {} demoBuyDf).length = 1 ∧
      (((MovingAverageCrossover.simulate_trades {} demoBuyDf).getD 0
          default).status = TradeStatus.CLOSED_PROFIT ∨
        ((MovingAverageCrossover.simulate_trades {} demoBuyDf).getD 0
          default).status = TradeStatus.CLOSED_LOSS) :=
  ⟨by with_unfolding_all decide,
   (no_closed_even_status {} {} demoBuyDf).1 _
    (getD_mem _ _ _ (by with_unfolding_all decide))⟩

/-- C10.  Both `_simulate_trades` loops run over `range(len(df) - 1)`, so a
signal flagged only on the series' final bar opens no trade: if every bar
except possibly the last carries no buy or sell flag, the trades list is
empty. -/
theorem last_bar_signal_opens_no_trade (cfgM : MAConfig) (cfgR : RSIConfig)
    (df : List SignalsRow)
    (h : ∀ i, i + 1 < df.length → (df.getD i default).buy_signal = false ∧
      (df.getD i default).sell_signal = false) :
    MovingAverageCrossover.simulate_trades cfgM df = [] ∧
      RSIStrategy.simulate_trades cfgR df = [] := by
  constructor
  · exact MA_simulate_no_signals h
  · unfold RSIStrategy.simulate_trades
    rw [RSI_foldl_no_signal _ _ fun i hi =>
      h i (by rw [List.mem_range] at hi; omega)]

/-- C10 witness: a frame whose only (buy and sell) signals sit on the last
bar produces empty trade lists for both strategies. -/
theorem last_bar_signal_opens_no_trade_witness :
    MovingAverageCrossover.simulate_trades {} lastBarSignalDf = [] ∧
      RSIStrategy.simulate_trades {} lastBarSignalDf = [] :=
  last_bar_signal_opens_no_trade {} {} lastBarSignalDf
    (by
      intro i hi
      have h0 : i = 0 := by
        have : lastBarSignalDf.length = 2 := rfl
        omega
      subst h0
      exact ⟨rfl, rfl⟩)

lemma closeTrade_exit_price (t : Trade) (p : ℚ) (j : ℕ) (st : TradeStatus)
    (r : String) : (closeTrade t p j st r).exit_price = some p := rfl

lemma checkTakeProfits_buy_find (t : Trade) (hi lo : ℚ) (j : ℕ)
    (htb : t.trade_type = TradeType.BUY) :
    ∀ (tps : List ℚ) (idx : ℕ) (tp : ℚ),
      tps.find? (fun x => decide (x ≤ hi)) = some tp →
      (checkTakeProfits t hi lo j tps idx).1.status =
          TradeStatus.CLOSED_PROFIT ∧
        (checkTakeProfits t hi lo j tps idx).1.exit_price = some tp ∧
        (checkTakeProfits t hi lo j tps idx).2 = true := by
  intro tps
  induction tps with
  | nil => intro idx tp hf; exact absurd hf (by simp)
  | cons x rest ih =>
    intro idx tp hf
    by_cases hx : x ≤ hi
    · rw [List.find?_cons_of_pos _ (by simpa using hx)] at hf
      injection hf with htp
      subst htp
      unfold checkTakeProfits
      rw [if_pos ⟨htb, hx⟩]
      exact ⟨rfl, rfl, rfl⟩
    · rw [List.find?_cons_of_neg _ (by simpa using hx)] at hf
      unfold checkTakeProfits
      rw [if_neg fun hc => hx hc.2,
        if_neg fun hc => by rw [htb] at hc; exact absurd hc.1 (by simp)]
      exact ih (idx + 1) tp hf

lemma checkTakeProfits_sell_find (t : Trade) (hi lo : ℚ) (j : ℕ)
    (hts : t.trade_type = TradeType.SELL) :
    ∀ (tps : List ℚ) (idx : ℕ) (tp : ℚ),
      tps.find? (fun x => decide (lo ≤ x)) = some tp →
      (checkTakeProfits t hi lo j tps idx).1.status =
          TradeStatus.CLOSED_PROFIT ∧
        (checkTakeProfits t hi lo j tps idx).1.exit_price = some tp ∧
        (checkTakeProfits t hi lo j tps idx).2 = true := by
  intro tps
  induction tps with
  | nil => intro idx tp hf; exact absurd hf (by simp)
  | cons x rest ih =>
    intro idx tp hf
    by_cases hx : lo ≤ x
    · rw [List.find?_cons_of_pos _ (by simpa using hx)] at hf
      injection hf with htp
      subst htp
      unfold checkTakeProfits
      rw [if_neg fun hc => by rw [hts] at hc; exact absurd hc.1 (by simp),
        if_pos ⟨hts, hx⟩]
      exact ⟨rfl, rfl, rfl⟩
    · rw [List.find?_cons_of_neg _ (by simpa using hx)] at hf
      unfold checkTakeProfits
      rw [if_neg fun hc => by rw [hts] at hc; exact absurd hc.1 (by simp),
        if_neg fun hc => hx hc.2]
      exact ih (idx + 1) tp hf

/-- C8.  Terminal states are final: `check_exit_conditions` on a trade whose
status is not OPEN returns `False` and leaves every field unchanged, the
forced end-of-data close only touches a still-open trade, and the forward
scan leaves a closed trade untouched (in the source the scan `break`s at the
moment a trade closes, so no later bar ever reaches it). -/
theorem closed_trade_is_terminal :
    (∀ (t : Trade) (hi lo : ℚ) (j : ℕ), t.status ≠ TradeStatus.OPEN →
      t.check_exit_conditions hi lo j = (t, false)) ∧
      (∀ (d : List SignalsRow) (t : Trade), t.status ≠ TradeStatus.OPEN →
        forceClose d t = t) ∧
      (∀ (t : Trade) (rows : List (ℕ × SignalsRow)),
        t.status ≠ TradeStatus.OPEN → runExits t rows = t) := by
  refine ⟨fun t hi lo j h => check_exit_of_closed hi lo j h,
    fun d t h => forceClose_of_closed d t h, ?_⟩
  intro t rows
  induction rows with
  | nil => intro _; rfl
  | cons jr rest ih =>
    intro hcl
    unfold runExits
    dsimp only
    rw [check_exit_of_closed jr.2.high jr.2.low jr.1 hcl]
    simpa using ih hcl

/-- C8 witness: a CLOSED_PROFIT trade fed a bar breaching both its stop-loss
and its take-profit levels is returned unchanged with result `False`. -/
theorem closed_trade_is_terminal_witness :
    (winTrade 0).check_exit_conditions 200 0 5 = (winTrade 0, false) :=
  closed_trade_is_terminal.1 (winTrade 0) 200 0 5 (by decide)

/-- C3.  On an open BUY trade, `check_exit_conditions` checks the stop-loss
before any take-profit level on the same bar: a low at or below the stop-loss
closes CLOSED_LOSS at the stop-loss price whatever the bar's high did;
otherwise the trade closes CLOSED_PROFIT at the first listed take-profit
level the high reaches (the list is built in ascending distance from entry).
The symmetric clauses hold for SELL trades with high and low swapped. -/
theorem stop_loss_before_take_profit (t : Trade) (hi lo : ℚ) (j : ℕ)
    (hopen : t.status = TradeStatus.OPEN) :
    (t.trade_type = TradeType.BUY →
      (lo ≤ t.stop_loss →
        t.check_exit_conditions hi lo j =
          (closeTrade t t.stop_loss j TradeStatus.CLOSED_LOSS "Stop-Loss",
            true)) ∧
      (t.stop_loss < lo →
        ∀ tp ∈ t.take_profit.find? (fun x => decide (x ≤ hi)),
          (t.check_exit_conditions hi lo j).1.status =
              TradeStatus.CLOSED_PROFIT ∧
            (t.check_exit_conditions hi lo j).1.exit_price = some tp ∧
            (t.check_exit_conditions hi lo j).2 = true)) ∧
      (t.trade_type = TradeType.SELL →
        (t.stop_loss ≤ hi →
          t.check_exit_conditions hi lo j =
            (closeTrade t t.stop_loss j TradeStatus.CLOSED_LOSS "Stop-Loss",
              true)) ∧
        (hi < t.stop_loss →
          ∀ tp ∈ t.take_profit.find? (fun x => decide (lo ≤ x)),
            (t.check_exit_conditions hi lo j).1.status =
                TradeStatus.CLOSED_PROFIT ∧
              (t.check_exit_conditions hi lo j).1.exit_price = some tp ∧
              (t.check_exit_conditions hi lo j).2 = true)) := by
  have hno : ¬t.status ≠ TradeStatus.OPEN := fun hne => hne hopen
  constructor
  · intro htb
    constructor
    · intro hsl
      unfold Trade.check_exit_conditions
      rw [if_neg hno, if_pos ⟨htb, hsl⟩]
    · intro hsl tp htp
      rw [Option.mem_def] at htp
      unfold Trade.check_exit_conditions
      rw [if_neg hno, if_neg fun hc => absurd hc.2 (not_le.mpr hsl),
        if_neg fun hc => by rw [htb] at hc; exact absurd hc.1 (by simp)]
      exact checkTakeProfits_buy_find t hi lo j htb t.take_profit 0 tp htp
  · intro hts
    constructor
    · intro hsl
      unfold Trade.check_exit_conditions
      rw [if_neg hno,
        if_neg fun hc => by rw [hts] at hc; exact absurd hc.1 (by simp),
        if_pos ⟨hts, hsl⟩]
    · intro hsl tp htp
      rw [Option.mem_def] at htp
      unfold Trade.check_exit_conditions
      rw [if_neg hno,
        if_neg fun hc => by rw [hts] at hc; exact absurd hc.1 (by simp),
        if_neg fun hc => absurd hc.2 (not_le.mpr hsl)]
      exact checkTakeProfits_sell_find t hi lo j hts t.take_profit 0 tp htp

/-- C3 witness: an open BUY trade (stop-loss 99, take-profits 101 and 102)
on a bar with high 101.5 and low 98 — both stop-loss and first take-profit
reached — closes CLOSED_LOSS at the stop-loss; on a bar with high 103 and
low 100 it closes CLOSED_PROFIT at the first level, 101. -/
theorem stop_loss_before_take_profit_witness :
    openBuyTrade.check_exit_conditions (101.5) 98 7 =
        (closeTrade openBuyTrade openBuyTrade.stop_loss 7
          TradeStatus.CLOSED_LOSS "Stop-Loss", true) ∧
      (openBuyTrade.check_exit_conditions 103 100 8).1.exit_price =
        some 101 ∧
      (openBuyTrade.check_exit_conditions 103 100 8).1.status =
        TradeStatus.CLOSED_PROFIT :=
  ⟨((stop_loss_before_take_profit openBuyTrade (101.5) 98 7 rfl).1 rfl).1
      (by with_unfolding_all decide),
   (((stop_loss_before_take_profit openBuyTrade 103 100 8 rfl).1 rfl).2
      (by with_unfolding_all decide) 101
      (Option.mem_def.mpr (by with_unfolding_all decide))).2.1,
   (((stop_loss_before_take_profit openBuyTrade 103 100 8 rfl).1 rfl).2
      (by with_unfolding_all decide) 101
      (Option.mem_def.mpr (by with_unfolding_all decide))).1⟩

lemma winningOf_of_closed_nil {ts : List Trade} (hc : closedOf ts = []) :
    winningOf ts = [] := by
  unfold winningOf
  rw [hc]
  rfl

lemma metrics_zero {ts : List Trade} (hc : closedOf ts = []) :
    TradingStrategy.calculate_performance_metrics ts =
      zeroMetrics ts.length := by
  unfold TradingStrategy.calculate_performance_metrics
  by_cases h0 : ts = []
  · rw [if_pos h0]
    subst h0
    rfl
  · rw [if_neg h0]
    dsimp only
    rw [if_pos hc]

lemma metrics_win_rate (ts : List Trade) :
    (TradingStrategy.calculate_performance_metrics ts).win_rate =
      ((winningOf ts).length : ℚ) / ((closedOf ts).length : ℚ) := by
  by_cases hc : closedOf ts = []
  · rw [metrics_zero hc, hc, winningOf_of_closed_nil hc]
    simp [zeroMetrics]
  · unfold TradingStrategy.calculate_performance_metrics
    rw [if_neg fun h0 => hc (by unfold closedOf; rw [h0]; rfl)]
    dsimp only
    rw [if_neg hc]
    dsimp only
    rw [if_pos (List.length_pos.mpr hc)]

lemma gross_profit_if (ts : List Trade) :
    (if winningOf ts = [] then (0 : ℚ)
      else ((winningOf ts).map pctOf).sum) = grossProfitOf ts := by
  unfold grossProfitOf
  split
  · rename_i h
    rw [h]
    rfl
  · rfl

lemma gross_loss_if (ts : List Trade) :
    (if losingOf ts = [] then (0 : ℚ)
      else |((losingOf ts).map pctOf).sum|) = grossLossOf ts := by
  unfold grossLossOf
  split
  · rename_i h
    rw [h]
    simp
  · rfl

lemma metrics_profit_factor (ts : List Trade) :
    (TradingStrategy.calculate_performance_metrics ts).profit_factor =
      if 0 < grossLossOf ts then
        ProfitFactor.fin (grossProfitOf ts / grossLossOf ts)
      else if 0 < grossProfitOf ts then ProfitFactor.infinite
      else ProfitFactor.fin 0 := by
  by_cases hc : closedOf ts = []
  · have hw : winningOf ts = [] := winningOf_of_closed_nil hc
    have hl : losingOf ts = [] := by unfold losingOf; rw [hc]; rfl
    rw [metrics_zero hc]
    unfold grossProfitOf grossLossOf
    rw [hw, hl]
    norm_num [zeroMetrics]
  · unfold TradingStrategy.calculate_performance_metrics
    rw [if_neg fun h0 => hc (by unfold closedOf; rw [h0]; rfl)]
    dsimp only
    rw [if_neg hc]
    dsimp only
    rw [gross_profit_if, gross_loss_if]

lemma metrics_expectancy (ts : List Trade) :
    (TradingStrategy.calculate_performance_metrics ts).expectancy =
      (TradingStrategy.calculate_performance_metrics ts).win_rate *
          (TradingStrategy.calculate_performance_metrics ts).avg_profit -
        (1 - (TradingStrategy.calculate_performance_metrics ts).win_rate) *
          (TradingStrategy.calculate_performance_metrics ts).avg_loss := by
  by_cases hc : closedOf ts = []
  · rw [metrics_zero hc]
    norm_num [zeroMetrics]
  · unfold TradingStrategy.calculate_performance_metrics
    rw [if_neg fun h0 => hc (by unfold closedOf; rw [h0]; rfl)]
    dsimp only
    rw [if_neg hc]

/-- C7.  The performance aggregator is a pure reduction over the closed
trades (OPEN trades are filtered out by `closedOf`): win rate is
winners/closed, profit factor is gross profit over gross loss with the
+infinity and zero special cases the specification states, expectancy is
`win_rate * avg_profit - (1 - win_rate) * avg_loss`, all metrics are zero
when no trade is closed, and the specification's 10-trade example (6 winners
at +2 percent, 4 losers at -1 percent) yields win rate 0.6, profit factor 3
and expectancy 0.8. -/
theorem performance_aggregator_reduction (ts : List Trade) :
    (TradingStrategy.calculate_performance_metrics ts).win_rate =
        ((winningOf ts).length : ℚ) / ((closedOf ts).length : ℚ) ∧
      (grossLossOf ts = 0 → 0 < grossProfitOf ts →
        (TradingStrategy.calculate_performance_metrics ts).profit_factor =
          ProfitFactor.infinite) ∧
      (grossLossOf ts = 0 → grossProfitOf ts = 0 →
        (TradingStrategy.calculate_performance_metrics ts).profit_factor =
          ProfitFactor.fin 0) ∧
      (grossLossOf ts ≠ 0 →
        (TradingStrategy.calculate_performance_metrics ts).profit_factor =
          ProfitFactor.fin (grossProfitOf ts / grossLossOf ts)) ∧
      ((TradingStrategy.calculate_performance_metrics ts).expectancy =
        (TradingStrategy.calculate_performance_metrics ts).win_rate *
            (TradingStrategy.calculate_performance_metrics ts).avg_profit -
          (1 - (TradingStrategy.calculate_performance_metrics ts).win_rate) *
            (TradingStrategy.calculate_performance_metrics ts).avg_loss) ∧
      (closedOf ts = [] →
        TradingStrategy.calculate_performance_metrics ts =
          zeroMetrics ts.length) ∧
      ((TradingStrategy.calculate_performance_metrics exampleTrades).win_rate =
          3 / 5 ∧
        (TradingStrategy.calculate_performance_metrics
            exampleTrades).profit_factor = ProfitFactor.fin 3 ∧
        (TradingStrategy.calculate_performance_metrics
            exampleTrades).expectancy = 4 / 5) := by
  refine ⟨metrics_win_rate ts, ?_, ?_, ?_, metrics_expectancy ts,
    fun hc => metrics_zero hc, ?_⟩
  · intro hgl hgp
    rw [metrics_profit_factor ts, if_neg (by rw [hgl]; exact lt_irrefl 0),
      if_pos hgp]
  · intro hgl hgp
    rw [metrics_profit_factor ts, if_neg (by rw [hgl]; exact lt_irrefl 0),
      if_neg (by rw [hgp]; exact lt_irrefl 0)]
  · intro hgl
    have hnn : 0 ≤ grossLossOf ts := by unfold grossLossOf; exact abs_nonneg _
    rw [metrics_profit_factor ts, if_pos (lt_of_le_of_ne hnn (Ne.symm hgl))]
  · refine ⟨?_, ?_, ?_⟩ <;> with_unfolding_all decide

/-- C7 witness: for the empty trade list every metric is zero. -/
theorem performance_aggregator_reduction_witness :
    TradingStrategy.calculate_performance_metrics [] = zeroMetrics 0 :=
  (performance_aggregator_reduction []).2.2.2.2.2.1 rfl

/-- C6 counterexample.  Not every indicator value is defined at every bar of
a non-empty series: on a one-bar series, the default fast moving average of
`MovingAverageCrossover.generate_signals` (a plain `rolling(9).mean()`) is
NaN at bar 0; the `rsi_14` of `calculate_technical_indicators` is NaN at
bar 0 (its `avg_gain/avg_loss` is 0/0 even with `min_periods=1`); and its
`atr_14` (`tr.rolling(14).mean()` with no `min_periods`) is NaN at bar 0. -/
theorem indicator_warmup_nan_counterexample :
    (maLine MAType.sma 9 [5]).getD 0 none = none ∧
      (rsiSeries 14 1 [5]).getD 0 none = none ∧
      (atrSeries 14 [⟨5, 5, 5⟩]).getD 0 none = none := by
  refine ⟨?_, ?_, ?_⟩ <;> with_unfolding_all decide

/-- C6 as amended.  The windows `calculate_technical_indicators` passes
`min_periods=1` (the SMAs, the Bollinger middle, the RSI gain/loss averages)
are defined at every bar of a non-empty series and EMAs are defined
everywhere; but the RSI quotient is still NaN where both averages are 0
(bar 0), and the plain full-window rolling means — the ATR there and every
rolling window inside the strategies' `generate_signals` — are NaN for the
first `window - 1` bars. -/
theorem rolling_window_min_periods_policy :
    (∀ (w : ℕ) (xs : List ℚ) (i : ℕ), 1 ≤ w → i < xs.length →
      ((rollingMean w 1 xs).getD i none).isSome = true) ∧
      (∀ (s : ℕ) (xs : List ℚ), (emaList s xs).length = xs.length) ∧
      (∀ (w : ℕ) (xs : List ℚ) (i : ℕ), i < xs.length → i + 1 < w →
        (rollingMean w w xs).getD i none = none) ∧
      (rsiSeries 14 1 [5]).getD 0 none = none ∧
      (atrSeries 14 [⟨5, 5, 5⟩]).getD 0 none = none := by
  refine ⟨?_, ?_, ?_, ?_, ?_⟩
  · intro w xs i hw hi
    unfold rollingMean
    rw [List.getD_eq_getElem?_getD, List.getElem?_map, List.getElem?_range hi,
      Option.map_some', Option.getD_some]
    dsimp only
    rw [if_pos (by
      rw [List.length_drop, List.length_take]
      omega)]
    rfl
  · intro s xs
    have hgo : ∀ (a p : ℚ) (l : List ℚ), (emaGo a p l).length = l.length := by
      intro a p l
      induction l generalizing p with
      | nil => rfl
      | cons x rest ih =>
        unfold emaGo
        rw [List.length_cons, List.length_cons, ih]
    cases xs with
    | nil => rfl
    | cons x rest =>
      unfold emaList
      rw [List.length_cons, List.length_cons, hgo]
  · intro w xs i hi hw
    unfold rollingMean
    rw [List.getD_eq_getElem?_getD, List.getElem?_map, List.getElem?_range hi,
      Option.map_some', Option.getD_some]
    dsimp only
    rw [if_neg (by
      rw [List.length_drop, List.length_take]
      omega)]
  · with_unfolding_all decide
  · with_unfolding_all decide

/-- C6 witness: with window 9 on a two-bar series, the `min_periods=1`
rolling mean is defined at bar 0 while the plain rolling mean is NaN
there. -/
theorem rolling_window_min_periods_policy_witness :
    ((rollingMean 9 1 [5, 5]).getD 0 none).isSome = true ∧
      (rollingMean 9 9 [5, 5]).getD 0 none = none :=
  ⟨rolling_window_min_periods_policy.1 9 [5, 5] 0 (by decide) (by decide),
   rolling_window_min_periods_policy.2.2.1 9 [5, 5] 0 (by decide) (by decide)⟩

/-- C5.  On a flat series every close, fast MA and slow MA are equal (or
NaN during warm-up), so `prev_fast_below_slow` and `curr_fast_above_slow`
are both false; the sell branch `elif not prev_fast_below_slow and not
curr_fast_above_slow` therefore fires at every bar `i ≥ 1` even though no
crossover happened: with the default configuration, the two-bar flat series
at price 5 gets `sell_signal = True` at bar 1 (and no buy signal). -/
theorem flat_series_fires_sell_signal :
    ((MovingAverageCrossover.generate_signals {} flatBars).getD 1
        default).sell_signal = true ∧
      ((MovingAverageCrossover.generate_signals {} flatBars).getD 1
        default).buy_signal = false ∧
      ((MovingAverageCrossover.generate_signals {} flatBars).getD 0
        default).sell_signal = false := by
  refine ⟨?_, ?_, ?_⟩ <;> with_unfolding_all decide

/-- C4.  `wait_for_exit_before_new_entry` never suppresses an entry: every
closure path of the eager per-signal forward simulation resets
`active_long`/`active_short` to `False` before the outer loop reaches the
next bar, so the gate `not active_long or not wait_for_exit_before_new_entry`
is always passed.  On `overlapDf` with the default configuration (the flag
is `True`), a second BUY trade opens at bar 1 while the bar-0 BUY trade is
still active (it exits at bar 3): the later trade's entry time 1 is earlier
than the earlier trade's exit time 3. -/
theorem wait_for_exit_flag_ineffective :
    ({} : RSIConfig).wait_for_exit_before_new_entry = true ∧
      (RSIStrategy.simulate_trades {} overlapDf).length = 2 ∧
      ((RSIStrategy.simulate_trades {} overlapDf).getD 0
        default).trade_type = TradeType.BUY ∧
      ((RSIStrategy.simulate_trades {} overlapDf).getD 1
        default).trade_type = TradeType.BUY ∧
      ((RSIStrategy.simulate_trades {} overlapDf).getD 0
        default).exit_time = some 3 ∧
      ((RSIStrategy.simulate_trades {} overlapDf).getD 1
        default).entry_time = 1 := by
  refine ⟨?_, ?_, ?_, ?_, ?_, ?_⟩ <;> with_unfolding_all decide
